import Mathlib

/-!
Shallow embedding of django-lockmin (src/django_lockmin/admin.py): the
AdminLockingMixin record-locking logic (is_locked, change_view, lock_record,
unlock_record, the unlock-permission machinery and setup validation), with the
relevant Django model and message-framework behaviour modeled explicitly.
Exceptions raised by the Python code are modeled as Option.none / Except.error.
-/

namespace Lockmin

/-- Django user primary keys. -/
abbrev UserId := Nat

/-- django_lockmin.typing.PermissionType: a named permission, as used by
admin.py (a codename plus a human-readable description). -/
structure PermissionType where
  codename : String
  description : String
deriving DecidableEq

/-- Kind of a Django model field: a foreign key names its related model
(Field.related_model; None for a plain field). -/
inductive FieldKind where
  | fk (relatedModel : String)
  | plain
deriving DecidableEq

/-- Metadata of the admin's model (self.model / self.opts): model name, app
label and the declared concrete fields. -/
structure ModelMeta where
  model_name : String
  app_label : String
  fields : List (String × FieldKind)
deriving DecidableEq

/-- A persisted model record: its pk, the value of the configured
model_reference_key field (modeled as a string, as the confirmation message
formatting requires), and its foreign-key attributes by field name.
An entry (f, none) is a NULL foreign key; a missing entry is a missing
attribute (getattr raises). -/
structure LRecord where
  pk : Nat
  reference : String
  fields : List (String × Option UserId)
deriving DecidableEq

/-- Python getattr(record, f): none models an AttributeError. -/
def pyGetattr (r : LRecord) (f : String) : Option (Option UserId) :=
  r.fields.lookup f

/-- Python setattr(record, f, v): updates the attribute, adding it as an
instance attribute when the record does not already carry it. -/
def pySetattr (r : LRecord) (f : String) (v : Option UserId) : LRecord :=
  if (r.fields.lookup f).isSome then
    { r with fields := r.fields.map (fun p => if p.1 = f then (f, v) else p) }
  else
    { r with fields := r.fields ++ [(f, v)] }

/-- django.contrib.messages level INFO. -/
def messages_INFO : Nat := 20

/-- django.contrib.messages level SUCCESS. -/
def messages_SUCCESS : Nat := 25

/-- django.contrib.messages level ERROR. -/
def messages_ERROR : Nat := 40

/-- The class-level default of max_records_lockable (admin.py line 79). -/
def default_max_records_lockable : Int := 1

/-- The class-level default of max_records_warning_msg (admin.py lines 80-82):
an f-string evaluated once, at class-definition time, over the class-level
default max_records_lockable. -/
def default_max_records_warning_msg : String :=
  "You can only lock upto " ++ toString default_max_records_lockable ++ " record(s)"

/-- The configurable class attributes of AdminLockingMixin, with the source's
class-level defaults. -/
structure LockConfig where
  allow_view_permissions : Bool := false
  model_reference_key : String := "pk"
  max_records_lockable : Int := default_max_records_lockable
  max_records_warning_msg : String := default_max_records_warning_msg
  locked_error_msg : String := "This record is locked. Please try again later."
  user_field : String := "user"
  unlock_record_action_permission : Option PermissionType :=
    some { codename := "unlock", description := "Can unlock a record." }
deriving DecidableEq

/-- The mixin with every attribute left at its class-level default. -/
def defaultLockConfig : LockConfig := {}

/-- A subclass that overrides only max_records_lockable: every other class
attribute, including the already-computed max_records_warning_msg, is
inherited unchanged. -/
def subclass_overriding_max (m : Int) : LockConfig :=
  { defaultLockConfig with max_records_lockable := m }

/-- django.contrib.auth.get_permission_codename(action, opts). -/
def get_permission_codename (act : String) (meta : ModelMeta) : String :=
  act ++ "_" ++ meta.model_name

/-- AdminLockingMixin.is_locked (admin.py lines 190-193):
user = getattr(obj, self.user_field); return user.id != request.user.id.
When the holder attribute is NULL, user is None and user.id raises
AttributeError, modeled as none. -/
def is_locked (cfg : LockConfig) (actorId : UserId) (r : LRecord) : Option Bool :=
  match pyGetattr r cfg.user_field with
  | some (some holderId) => some (holderId != actorId)
  | _ => none

/-- AdminLockingMixin.has_view_permission (admin.py lines 261-271):
unconditionally True. -/
def has_view_permission (_cfg : LockConfig) (_actorId : UserId)
    (_obj : Option LRecord) : Bool :=
  true

/-- AdminLockingMixin.has_change_permission (admin.py lines 273-283):
True with no object, otherwise not is_locked (an is_locked exception
propagates). -/
def has_change_permission (cfg : LockConfig) (actorId : UserId)
    (obj : Option LRecord) : Option Bool :=
  match obj with
  | none => some true
  | some r => (is_locked cfg actorId r).map (fun b => !b)

/-- A user row: pk, username, profile names and the set of permission
strings the user holds (the result of resolving has_perm against the
permission registry). -/
structure UserRec where
  id : UserId
  username : String
  first_name : String
  last_name : String
  perms : List String
deriving DecidableEq

/-- AdminLockingMixin.is_locked_by (admin.py lines 243-259): the display name
of the locking user; the Bool records whether the incomplete-profile warning
was logged. none models a lookup failure of the holder user row. -/
def is_locked_by (cfg : LockConfig) (userDb : List UserRec) (r : LRecord) :
    Option (String × Bool) :=
  match pyGetattr r cfg.user_field with
  | none => none
  | some none => some ("-", false)
  | some (some uid) =>
    match userDb.find? (fun u => u.id == uid) with
    | none => none
    | some u =>
      if u.first_name = "" ∧ u.last_name = "" then some (u.username, true)
      else some (u.first_name ++ " " ++ u.last_name, false)

/-- AdminLockingMixin.has_unlock_permission (admin.py lines 285-301): True
when no unlock permission is configured; otherwise the user row is re-fetched
fresh from the store by pk (get_object_or_404, Except.error models Http404)
and has_perm is answered from that fresh row, never from the request user
object. -/
def has_unlock_permission (meta : ModelMeta) (cfg : LockConfig)
    (userDb : List UserRec) (request_user : UserRec) : Except String Bool :=
  match cfg.unlock_record_action_permission with
  | none => Except.ok true
  | some p =>
    let codename := get_permission_codename p.codename meta
    match userDb.find? (fun u => u.id == request_user.id) with
    | none => Except.error "Http404"
    | some fresh => Except.ok (fresh.perms.contains (meta.app_label ++ "." ++ codename))

/-- A persisted django.contrib.auth Permission row. -/
structure PermRecord where
  codename : String
  name : String
  content_type : String
deriving DecidableEq

/-- Permission.objects.filter(codename=cn).count(). -/
def countPerm (store : List PermRecord) (cn : String) : Nat :=
  (store.filter (fun q => q.codename == cn)).length

/-- AdminLockingMixin._set_unlock_permission (admin.py lines 147-171): when an
unlock permission is configured and no Permission row with the full codename
exists, create one carrying the configured description. Returns the updated
permission store. -/
def set_unlock_permission (meta : ModelMeta) (cfg : LockConfig)
    (store : List PermRecord) : List PermRecord :=
  match cfg.unlock_record_action_permission with
  | none => store
  | some p =>
    let full_codename := get_permission_codename p.codename meta
    if countPerm store full_codename = 0 then
      store ++ [{ codename := full_codename, name := p.description,
                  content_type := meta.model_name }]
    else
      store

/-- n sequential calls of _set_unlock_permission. -/
def set_unlock_permission_iter (meta : ModelMeta) (cfg : LockConfig) :
    Nat → List PermRecord → List PermRecord
  | 0, store => store
  | Nat.succ n, store =>
    set_unlock_permission_iter meta cfg n (set_unlock_permission meta cfg store)

/-- AdminLockingMixin._validate_user_field (admin.py lines 173-188): ValueError
when the configured user_field is not a field of the model or is not a foreign
key to the User model. -/
def validate_user_field (meta : ModelMeta) (cfg : LockConfig) :
    Except String Unit :=
  match meta.fields.lookup cfg.user_field with
  | none =>
    Except.error ("The user_field was set to " ++ cfg.user_field ++
      " but that is not a model field of " ++ meta.model_name)
  | some (FieldKind.fk rel) =>
    if rel = "User" then Except.ok ()
    else Except.error ("The user_field was set to " ++ cfg.user_field ++
      " but that is not a foreign key to the User table.")
  | some FieldKind.plain =>
    Except.error ("The user_field was set to " ++ cfg.user_field ++
      " but that is not a foreign key to the User table.")

/-- The mutable list/action registration state touched by __init__. -/
structure AdminSetup where
  list_display : List String
  actions : List String
deriving DecidableEq

/-- The registration pattern of __init__: if the tuple is empty use the
singleton, else append the entry when missing. -/
def add_column (xs : List String) (c : String) : List String :=
  if xs.isEmpty then [c] else if xs.contains c then xs else xs ++ [c]

/-- AdminLockingMixin.__init__ (admin.py lines 100-136): registers the
is_locked_by column and the unlock/lock actions, then runs
_validate_user_field; the ValueError propagates out of setup. -/
def admin_init (meta : ModelMeta) (cfg : LockConfig) (s : AdminSetup) :
    Except String AdminSetup :=
  let s1 : AdminSetup :=
    { list_display := add_column s.list_display "is_locked_by"
      actions := add_column (add_column s.actions "unlock_record") "lock_record" }
  (validate_user_field meta cfg).map (fun _ => s1)

/-- State after unlock_record or an exception part-way. -/
structure UnlockResult where
  records : List LRecord
  message : String
  level : Nat
deriving DecidableEq

/-- One loop iteration of unlock_record (admin.py lines 202-204): the literal
attribute "user" is assigned None and saved with update_fields=["user"];
Django raises ValueError from save when "user" is not a concrete field of
the model. -/
def unlock_one (meta : ModelMeta) (r : LRecord) : Except String LRecord :=
  if (meta.fields.lookup "user").isSome then
    Except.ok (pySetattr r "user" none)
  else
    Except.error "ValueError: update_fields did not name a concrete model field"

/-- AdminLockingMixin.unlock_record (admin.py lines 195-214): clear the
hard-coded "user" attribute of every selected record, then report the
reference values of the records with a SUCCESS message. -/
def unlock_record (meta : ModelMeta) (queryset : List LRecord) :
    Except String UnlockResult :=
  (queryset.mapM (unlock_one meta)).map (fun cleared =>
    { records := cleared
      message := "Successfully unlocked the following records: " ++
        String.intercalate ", " (cleared.map (fun r => r.reference))
      level := messages_SUCCESS })

/-- QuerySet.get(): DoesNotExist on an empty queryset, MultipleObjectsReturned
on more than one row. -/
def queryset_get (qs : List LRecord) : Except String LRecord :=
  match qs with
  | [] => Except.error "DoesNotExist"
  | [r] => Except.ok r
  | _ => Except.error "MultipleObjectsReturned"

/-- self.model.objects.filter(**(user_field: request.user.pk)): the records
whose holder foreign key equals the acting user's pk. -/
def records_held_by (cfg : LockConfig) (db : List LRecord) (actorPk : UserId) :
    List LRecord :=
  db.filter (fun r => pyGetattr r cfg.user_field == some (some actorPk))

/-- queryset.union(held).count(): distinct rows of the SQL UNION, i.e. the
number of distinct pks (rows of one record are identical). -/
def union_count (queryset held : List LRecord) : Nat :=
  ((queryset ++ held).map LRecord.pk).dedup.length

deriving instance DecidableEq for Except

/-- Outcome of the lock_record action: the flashed messages and either the pk
of the record whose change view is redirected to, or the exception raised by
queryset.get(). -/
structure LockActionResult where
  messages : List (String × Nat)
  response : Except String Nat
deriving DecidableEq

/-- AdminLockingMixin.lock_record (admin.py lines 216-241): count the union of
the selected records with the records already held by the acting user; when
the count exceeds max_records_lockable flash the warning message at ERROR
level, and in every case continue to queryset.get() and redirect to that
record's change view. -/
def lock_record (cfg : LockConfig) (db : List LRecord) (actorPk : UserId)
    (queryset : List LRecord) : LockActionResult :=
  let all_records_for_user :=
    union_count queryset (records_held_by cfg db actorPk)
  let msgs :=
    if (all_records_for_user : Int) > cfg.max_records_lockable then
      [(cfg.max_records_warning_msg, messages_ERROR)]
    else []
  { messages := msgs, response := (queryset_get queryset).map LRecord.pk }

/-- Outcome of change_view: the (possibly updated) record, the flashed
messages, and whether an HttpResponseRedirect away from the record was
returned. -/
structure ChangeViewResult where
  record : LRecord
  messages : List (String × Nat)
  redirected : Bool
deriving DecidableEq

/-- AdminLockingMixin.change_view (admin.py lines 326-356): on an unheld
record assign the holder to the requesting user and save only that field; on
a record locked by another user flash locked_error_msg at ERROR level and
redirect away unless allow_view_permissions; otherwise fall through to the
ordinary change view. none models an AttributeError from getattr. -/
def change_view (cfg : LockConfig) (actorId : UserId) (r : LRecord) :
    Option ChangeViewResult :=
  match pyGetattr r cfg.user_field with
  | none => none
  | some none =>
    some { record := pySetattr r cfg.user_field (some actorId)
           messages := []
           redirected := false }
  | some (some holderId) =>
    if holderId != actorId then
      some { record := r
             messages := [(cfg.locked_error_msg, messages_ERROR)]
             redirected := !cfg.allow_view_permissions }
    else
      some { record := r, messages := [], redirected := false }

/-- A model whose holder field is the default "user". -/
def meta_user_ok : ModelMeta :=
  { model_name := "order", app_label := "shop",
    fields := [("user", FieldKind.fk "User")] }

/-- An unheld record: its user foreign key is NULL. -/
def record_unheld : LRecord :=
  { pk := 1, reference := "R1", fields := [("user", none)] }

/-- A record whose user foreign key points at user 1. -/
def record_heldby1 : LRecord :=
  { pk := 1, reference := "R1", fields := [("user", some 1)] }

/-- A model whose holder field is configured as locked_by and that has no
field named user. -/
def meta_locked_by : ModelMeta :=
  { model_name := "order", app_label := "shop",
    fields := [("locked_by", FieldKind.fk "User")] }

/-- The mixin configured with user_field = locked_by. -/
def cfg_locked_by : LockConfig :=
  { defaultLockConfig with user_field := "locked_by" }

/-- A record of meta_locked_by held by user 1. -/
def record_lb : LRecord :=
  { pk := 1, reference := "R1", fields := [("locked_by", some 1)] }

/-- A model carrying both the configured holder field locked_by and an
unrelated user foreign key. -/
def meta_two_fk : ModelMeta :=
  { model_name := "order", app_label := "shop",
    fields := [("locked_by", FieldKind.fk "User"), ("user", FieldKind.fk "User")] }

/-- A record of meta_two_fk: locked (holder locked_by = 1) and with its
unrelated user foreign key pointing at user 2. -/
def record_two : LRecord :=
  { pk := 2, reference := "R2",
    fields := [("locked_by", some 1), ("user", some 2)] }

/-- The mixin with max_records_lockable raised to 2. -/
def cfg_max2 : LockConfig :=
  { defaultLockConfig with max_records_lockable := 2 }

/-- Record R1, held by user 1. -/
def recR1 : LRecord :=
  { pk := 1, reference := "R1", fields := [("user", some 1)] }

/-- Record R2, unheld. -/
def recR2 : LRecord :=
  { pk := 2, reference := "R2", fields := [("user", none)] }

/-- Record R3, unheld. -/
def recR3 : LRecord :=
  { pk := 3, reference := "R3", fields := [("user", none)] }

/-- A user row whose fresh permission set holds the qualified unlock
codename for meta_user_ok. -/
def userAlice : UserRec :=
  { id := 1, username := "alice", first_name := "", last_name := "",
    perms := ["shop.unlock_order"] }

/-- Updating an association list rewrites exactly the looked-up key. -/
theorem lookup_map_update (l : List (String × Option UserId)) (f : String)
    (v : Option UserId) :
    (l.map (fun p => if p.1 = f then (f, v) else p)).lookup f =
      (l.lookup f).map (fun _ => v) := by
  induction l with
  | nil => rfl
  | cons p t ih =>
    obtain ⟨k, w⟩ := p
    by_cases h : k = f
    · subst h
      simp [List.lookup_cons_self]
    · have hb : (f == k) = false := beq_false_of_ne fun e => h e.symm
      simp [List.lookup_cons, h, hb, ih]

/-- Setting an attribute that the record already carries makes it the value
subsequently read back. -/
theorem pyGetattr_pySetattr_found (r : LRecord) (f : String)
    (w v : Option UserId) (h : pyGetattr r f = some w) :
    pyGetattr (pySetattr r f v) f = some v := by
  unfold pyGetattr at h ⊢
  have hc : (r.fields.lookup f).isSome = true := by rw [h]; rfl
  unfold pySetattr
  rw [if_pos hc]
  simp [lookup_map_update, h]

/-- C1: the claim says is_locked returns false, never failing, on a record
whose holder is empty. Evaluating the source at that input: is_locked reads
user.id from the None holder, an AttributeError (modeled as none), and
has_change_permission propagates the failure; only when the holder is set
does it compute holder-differs-from-actor as the claim states. -/
theorem c1_is_locked_raises_on_unheld_record :
    is_locked defaultLockConfig 1 record_unheld = none ∧
    has_change_permission defaultLockConfig 1 (some record_unheld) = none ∧
    (∀ holderId actorId : UserId, is_locked defaultLockConfig actorId
        { pk := 1, reference := "R1", fields := [("user", some holderId)] } =
      some (holderId != actorId)) :=
  ⟨rfl, rfl, fun _ _ => rfl⟩

/-- C2: change_view is the three-state step. On an unheld record it assigns
the holder to the acting user and the edit is allowed; on a record held by
the acting user it changes nothing and allows the edit; on a record held by
another user it flashes locked_error_msg at ERROR level, leaves the holder
unchanged, redirects away exactly when allow_view_permissions is false, and
the record is read-only (has_change_permission false). -/
theorem c2_change_view_three_state (cfg : LockConfig) (actorId : UserId)
    (r : LRecord) :
    (pyGetattr r cfg.user_field = some none →
      change_view cfg actorId r = some
        { record := pySetattr r cfg.user_field (some actorId)
          messages := []
          redirected := false } ∧
      has_change_permission cfg actorId
        (some (pySetattr r cfg.user_field (some actorId))) = some true) ∧
    (pyGetattr r cfg.user_field = some (some actorId) →
      change_view cfg actorId r =
        some { record := r, messages := [], redirected := false }) ∧
    (∀ holderId : UserId, pyGetattr r cfg.user_field = some (some holderId) →
      holderId ≠ actorId →
      change_view cfg actorId r = some
        { record := r
          messages := [(cfg.locked_error_msg, messages_ERROR)]
          redirected := !cfg.allow_view_permissions } ∧
      has_change_permission cfg actorId (some r) = some false) := by
  refine ⟨fun h => ⟨?_, ?_⟩, fun h => ?_, fun holderId h hne => ⟨?_, ?_⟩⟩
  · unfold change_view
    rw [h]
  · simp only [has_change_permission, is_locked]
    rw [pyGetattr_pySetattr_found r cfg.user_field none (some actorId) h]
    simp
  · unfold change_view
    rw [h]
    simp
  · unfold change_view
    rw [h]
    simp [hne]
  · simp only [has_change_permission, is_locked]
    rw [h]
    simp [hne]

/-- C2 at a concrete input: user 2 opens R1 while user 1 holds it under the
default configuration; the locked message is flashed, the holder is
unchanged, the view redirects away and the record is not editable. -/
theorem c2_witness :
    change_view defaultLockConfig 2 record_heldby1 = some
      { record := record_heldby1
        messages := [(defaultLockConfig.locked_error_msg, messages_ERROR)]
        redirected := true } ∧
    has_change_permission defaultLockConfig 2 (some record_heldby1) =
      some false := by
  have h := (c2_change_view_three_state defaultLockConfig 2 record_heldby1).2.2
    1 rfl (by decide)
  exact ⟨h.1, h.2⟩

/-- C3: the claim says release always succeeds for every configuration and
clears the configured holder field. Evaluating unlock_record where user_field
is configured as locked_by: setup validation accepts the configuration, yet
on a model without a field named user the hard-coded save raises ValueError
(release fails), and on a model that also carries an unrelated user foreign
key release succeeds but leaves the configured holder locked_by set. -/
theorem c3_unlock_record_ignores_configured_user_field :
    validate_user_field meta_locked_by cfg_locked_by = Except.ok () ∧
    unlock_record meta_locked_by [record_lb] =
      Except.error "ValueError: update_fields did not name a concrete model field" ∧
    validate_user_field meta_two_fk cfg_locked_by = Except.ok () ∧
    (unlock_record meta_two_fk [record_two]).map
        (fun res => res.records.map
          (fun r => pyGetattr r cfg_locked_by.user_field)) =
      Except.ok [some (some 1)] := by
  refine ⟨rfl, rfl, rfl, rfl⟩

/-- C9: the claim says the holder field is the only record state the core
ever mutates and that release touches only the holder attribute. Evaluating
unlock_record with user_field = locked_by on a record carrying both foreign
keys: the persisted change is to the unrelated user attribute (user 2 becomes
NULL) while the configured holder locked_by keeps its value 1, so a
non-holder attribute is mutated and the holder is not. -/
theorem c9_release_persists_nonholder_attribute :
    cfg_locked_by.user_field = "locked_by" ∧
    pyGetattr record_two "locked_by" = some (some 1) ∧
    pyGetattr record_two "user" = some (some 2) ∧
    (unlock_record meta_two_fk [record_two]).map
        (fun res => res.records.map
          (fun r => (pyGetattr r "locked_by", pyGetattr r "user"))) =
      Except.ok [(some (some 1), some none)] := by
  refine ⟨rfl, rfl, rfl, rfl⟩

/-- C4 counterexample: max_records_lockable = 2, user 1 already holds R1 and
selects R2 and R3 (the spec scenario). The quota warning is flashed, yet
lock_record does not proceed to acquire the first record of the target set:
queryset.get() raises MultipleObjectsReturned. -/
theorem c4_counterexample_multi_select_raises :
    (lock_record cfg_max2 [recR1, recR2, recR3] 1 [recR2, recR3]).messages =
      [(cfg_max2.max_records_warning_msg, messages_ERROR)] ∧
    (lock_record cfg_max2 [recR1, recR2, recR3] 1 [recR2, recR3]).response =
      Except.error "MultipleObjectsReturned" ∧
    (lock_record cfg_max2 [recR1, recR2, recR3] 1 [recR2, recR3]).response ≠
      Except.ok recR2.pk := by
  refine ⟨by decide, by decide, by decide⟩

/-- C4 amended: the quota failure is non-fatal — the warning is flashed and
execution continues to queryset.get() — and with exactly one selected record
the action then redirects to that record's change view; with more than one
selected record queryset.get() raises MultipleObjectsReturned instead of
acquiring anything. -/
theorem c4_lock_record_warns_then_gets (cfg : LockConfig) (db : List LRecord)
    (actorPk : UserId) (queryset : List LRecord) :
    ((union_count queryset (records_held_by cfg db actorPk) : Int) >
        cfg.max_records_lockable →
      (lock_record cfg db actorPk queryset).messages =
        [(cfg.max_records_warning_msg, messages_ERROR)]) ∧
    (∀ r, queryset = [r] →
      (lock_record cfg db actorPk queryset).response = Except.ok r.pk) ∧
    (∀ r1 r2 rest, queryset = r1 :: r2 :: rest →
      (lock_record cfg db actorPk queryset).response =
        Except.error "MultipleObjectsReturned") := by
  refine ⟨fun h => ?_, fun r h => ?_, fun r1 r2 rest h => ?_⟩
  · show (if (union_count queryset (records_held_by cfg db actorPk) : Int) >
        cfg.max_records_lockable then
          [(cfg.max_records_warning_msg, messages_ERROR)] else []) =
      [(cfg.max_records_warning_msg, messages_ERROR)]
    rw [if_pos h]
  · subst h
    rfl
  · subst h
    rfl

/-- C4 amended claim at a concrete input: the single-record select of R2
redirects to its change view even though user 1 already holds R1 under the
default quota of 1. -/
theorem c4_witness :
    (lock_record defaultLockConfig [recR1, recR2] 1 [recR2]).response =
      Except.ok 2 :=
  (c4_lock_record_warns_then_gets defaultLockConfig [recR1, recR2] 1
    [recR2]).2.1 recR2 rfl

/-- C5: lock_record flashes the configured warning message exactly when the
cardinality of the union of the selected records and the records already held
by the acting user exceeds max_records_lockable. -/
theorem c5_quota_message_iff_union_exceeds (cfg : LockConfig)
    (db : List LRecord) (actorPk : UserId) (queryset : List LRecord) :
    (lock_record cfg db actorPk queryset).messages =
        [(cfg.max_records_warning_msg, messages_ERROR)] ↔
      (union_count queryset (records_held_by cfg db actorPk) : Int) >
        cfg.max_records_lockable := by
  constructor
  · intro h
    by_contra hc
    have hmsg : (lock_record cfg db actorPk queryset).messages = [] := by
      show (if (union_count queryset (records_held_by cfg db actorPk) : Int) >
          cfg.max_records_lockable then
            [(cfg.max_records_warning_msg, messages_ERROR)] else []) = []
      rw [if_neg hc]
    rw [hmsg] at h
    simp at h
  · intro h
    show (if (union_count queryset (records_held_by cfg db actorPk) : Int) >
        cfg.max_records_lockable then
          [(cfg.max_records_warning_msg, messages_ERROR)] else []) =
      [(cfg.max_records_warning_msg, messages_ERROR)]
    rw [if_pos h]

/-- C5 at the claim's own instance: max_records_lockable = 1, user 1 already
holds R1, and a lock of the single additional record R2 flashes the quota
warning. -/
theorem c5_witness :
    (lock_record defaultLockConfig [recR1, recR2] 1 [recR2]).messages =
      [(defaultLockConfig.max_records_warning_msg, messages_ERROR)] :=
  (c5_quota_message_iff_union_exceeds defaultLockConfig [recR1, recR2] 1
    [recR2]).mpr (by decide)

/-- C6: has_unlock_permission is True when no unlock permission is
configured; otherwise it answers exactly whether the user row re-fetched
fresh from the store holds the qualified codename, and the permission set
cached on the request user object is never consulted. -/
theorem c6_has_unlock_permission_fresh (meta : ModelMeta) (cfg : LockConfig)
    (userDb : List UserRec) (request_user fresh : UserRec) :
    (cfg.unlock_record_action_permission = none →
      has_unlock_permission meta cfg userDb request_user = Except.ok true) ∧
    (∀ p, cfg.unlock_record_action_permission = some p →
      userDb.find? (fun u => u.id == request_user.id) = some fresh →
      has_unlock_permission meta cfg userDb request_user = Except.ok
        (fresh.perms.contains
          (meta.app_label ++ "." ++ get_permission_codename p.codename meta))) ∧
    (∀ stale, has_unlock_permission meta cfg userDb
        { request_user with perms := stale } =
      has_unlock_permission meta cfg userDb request_user) := by
  refine ⟨fun h => ?_, fun p hp hf => ?_, fun stale => rfl⟩
  · unfold has_unlock_permission
    rw [h]
  · simp only [has_unlock_permission, hp]
    rw [hf]

/-- C6 at a concrete input: the default unlock permission is configured, the
fresh row of user alice holds shop.unlock_order, and the check succeeds. -/
theorem c6_witness :
    has_unlock_permission meta_user_ok defaultLockConfig [userAlice]
      userAlice = Except.ok true := by
  have h := (c6_has_unlock_permission_fresh meta_user_ok defaultLockConfig
      [userAlice] userAlice userAlice).2.1
    { codename := "unlock", description := "Can unlock a record." } rfl
    (by decide)
  rw [h]
  decide

/-- C7 counterexample: a configuration whose quota is 0 (≤ 0) but whose
user_field is a valid User foreign key passes __init__ with no error: setup
never validates the quota. -/
theorem c7_counterexample_quota_zero_accepted :
    admin_init meta_user_ok
        { defaultLockConfig with max_records_lockable := 0 }
        { list_display := [], actions := [] } =
      Except.ok { list_display := ["is_locked_by"],
                  actions := ["unlock_record", "lock_record"] } := by
  decide

/-- C7 amended: setup fails fast exactly when the configured user_field is
missing from the model or is not a foreign key to User; the quota is not
validated at setup — validation is unchanged under any max_records_lockable,
including values ≤ 0. -/
theorem c7_setup_validates_user_field_only (meta : ModelMeta)
    (cfg : LockConfig) :
    (meta.fields.lookup cfg.user_field = none →
      validate_user_field meta cfg = Except.error ("The user_field was set to "
        ++ cfg.user_field ++ " but that is not a model field of " ++
        meta.model_name)) ∧
    (∀ rel, meta.fields.lookup cfg.user_field = some (FieldKind.fk rel) →
      rel ≠ "User" →
      validate_user_field meta cfg = Except.error ("The user_field was set to "
        ++ cfg.user_field ++ " but that is not a foreign key to the User table.")) ∧
    (meta.fields.lookup cfg.user_field = some FieldKind.plain →
      validate_user_field meta cfg = Except.error ("The user_field was set to "
        ++ cfg.user_field ++ " but that is not a foreign key to the User table.")) ∧
    (meta.fields.lookup cfg.user_field = some (FieldKind.fk "User") →
      validate_user_field meta cfg = Except.ok ()) ∧
    (∀ q : Int, validate_user_field meta
        { cfg with max_records_lockable := q } = validate_user_field meta cfg) := by
  refine ⟨fun h => ?_, fun rel h hne => ?_, fun h => ?_, fun h => ?_,
    fun q => rfl⟩
  · unfold validate_user_field
    rw [h]
  · unfold validate_user_field
    rw [h]
    simp [hne]
  · unfold validate_user_field
    rw [h]
  · unfold validate_user_field
    rw [h]
    simp

/-- C7 amended claim at a concrete input: the default configuration on a
model with a user foreign key to User validates cleanly. -/
theorem c7_witness :
    validate_user_field meta_user_ok defaultLockConfig = Except.ok () :=
  (c7_setup_validates_user_field_only meta_user_ok
    defaultLockConfig).2.2.2.1 (by decide)

/-- One call of _set_unlock_permission never leaves the store, it only keeps
every row it already holds. -/
theorem mem_set_unlock_permission (meta : ModelMeta) (cfg : LockConfig)
    (e : PermRecord) (store : List PermRecord) (h : e ∈ store) :
    e ∈ set_unlock_permission meta cfg store := by
  unfold set_unlock_permission
  cases cfg.unlock_record_action_permission with
  | none => exact h
  | some p =>
    dsimp only
    split
    · exact List.mem_append_left _ h
    · exact h

/-- Iterating _set_unlock_permission keeps every row of the store. -/
theorem mem_set_unlock_permission_iter (meta : ModelMeta) (cfg : LockConfig)
    (e : PermRecord) (n : Nat) :
    ∀ store : List PermRecord, e ∈ store →
      e ∈ set_unlock_permission_iter meta cfg n store := by
  induction n with
  | zero => exact fun store h => h
  | succ n ih =>
    exact fun store h => ih _ (mem_set_unlock_permission meta cfg e store h)

/-- One call of _set_unlock_permission: the count of rows with the configured
full codename becomes 1 when it was 0 and is otherwise unchanged. -/
theorem countPerm_set_unlock_permission (meta : ModelMeta) (cfg : LockConfig)
    (p : PermissionType) (store : List PermRecord)
    (hp : cfg.unlock_record_action_permission = some p) :
    countPerm (set_unlock_permission meta cfg store)
        (get_permission_codename p.codename meta) =
      if countPerm store (get_permission_codename p.codename meta) = 0 then 1
      else countPerm store (get_permission_codename p.codename meta) := by
  simp only [set_unlock_permission, hp]
  by_cases h : countPerm store (get_permission_codename p.codename meta) = 0
  · rw [if_pos h, if_pos h]
    unfold countPerm at h ⊢
    rw [List.filter_append, List.length_append, h]
    simp
  · rw [if_neg h, if_neg h]

/-- C8: _set_unlock_permission is idempotent under repeated sequential calls:
starting from a permission store holding at most one row with the configured
full codename, any number of calls leaves at most one such row; and when the
store holds none, the first call creates the row carrying the configured
description. -/
theorem c8_set_unlock_permission_idempotent (meta : ModelMeta)
    (cfg : LockConfig) (p : PermissionType) (store : List PermRecord) (n : Nat)
    (hp : cfg.unlock_record_action_permission = some p)
    (h1 : countPerm store (get_permission_codename p.codename meta) ≤ 1) :
    countPerm (set_unlock_permission_iter meta cfg n store)
        (get_permission_codename p.codename meta) ≤ 1 ∧
    (countPerm store (get_permission_codename p.codename meta) = 0 → 1 ≤ n →
      ({ codename := get_permission_codename p.codename meta,
         name := p.description, content_type := meta.model_name } : PermRecord) ∈
        set_unlock_permission_iter meta cfg n store) := by
  constructor
  · induction n generalizing store with
    | zero => exact h1
    | succ n ih =>
      show countPerm (set_unlock_permission_iter meta cfg n
        (set_unlock_permission meta cfg store))
          (get_permission_codename p.codename meta) ≤ 1
      apply ih
      rw [countPerm_set_unlock_permission meta cfg p store hp]
      split
      · exact le_refl 1
      · exact h1
  · intro h0 hn
    cases n with
    | zero => exact absurd hn (by decide)
    | succ n =>
      show _ ∈ set_unlock_permission_iter meta cfg n
        (set_unlock_permission meta cfg store)
      apply mem_set_unlock_permission_iter
      simp only [set_unlock_permission, hp, if_pos h0]
      exact List.mem_append_right _ (List.mem_singleton_self _)

/-- C8 at a concrete input: three sequential calls from an empty permission
store under the default configuration leave exactly one unlock_order row,
created with the configured description. -/
theorem c8_witness :
    countPerm (set_unlock_permission_iter meta_user_ok defaultLockConfig 3 [])
        (get_permission_codename "unlock" meta_user_ok) ≤ 1 ∧
    ({ codename := get_permission_codename "unlock" meta_user_ok,
       name := "Can unlock a record.",
       content_type := "order" } : PermRecord) ∈
      set_unlock_permission_iter meta_user_ok defaultLockConfig 3 [] := by
  have h := c8_set_unlock_permission_idempotent meta_user_ok defaultLockConfig
    { codename := "unlock", description := "Can unlock a record." } [] 3 rfl
    (by decide)
  exact ⟨h.1, h.2 rfl (by decide)⟩

/-- C10: the default quota warning message is computed once, at
class-definition time, from the class-level default max_records_lockable = 1;
a configuration overriding only max_records_lockable keeps the message
stating the limit as 1, and that stale message is what a quota breach
flashes. -/
theorem c10_warning_message_frozen_at_class_definition (m : Int)
    (db : List LRecord) (actorPk : UserId) (queryset : List LRecord) :
    (subclass_overriding_max m).max_records_warning_msg =
      "You can only lock upto 1 record(s)" ∧
    ((union_count queryset
        (records_held_by (subclass_overriding_max m) db actorPk) : Int) > m →
      (lock_record (subclass_overriding_max m) db actorPk queryset).messages =
        [("You can only lock upto 1 record(s)", messages_ERROR)]) := by
  constructor
  · rfl
  · intro h
    show (if (union_count queryset
        (records_held_by (subclass_overriding_max m) db actorPk) : Int) >
          (subclass_overriding_max m).max_records_lockable then
            [((subclass_overriding_max m).max_records_warning_msg,
              messages_ERROR)] else []) =
      [("You can only lock upto 1 record(s)", messages_ERROR)]
    have hm : (subclass_overriding_max m).max_records_lockable = m := rfl
    rw [hm, if_pos h]
    rfl

/-- C10 at a concrete input: a subclass setting max_records_lockable to 0
still flashes the message claiming a limit of 1 on a breach. -/
theorem c10_witness :
    (lock_record (subclass_overriding_max 0) [] 1 [recR2]).messages =
      [("You can only lock upto 1 record(s)", messages_ERROR)] :=
  (c10_warning_message_frozen_at_class_definition 0 [] 1 [recR2]).2 (by decide)

end Lockmin
